import Mathlib

/-!
Shallow embedding of src/stateStream.js (rxact state streams).

JavaScript values relevant to the state machinery are modelled by `JSVal`.
A StateUpdate emitted by an event handler is either a plain value or a
callable updater, modelled by `Updater`.  A source stream owns a
BehaviorSubject-like state cell, an append-only registry of handler
identities, a trace of states delivered to state-sequence subscribers, and a
trace of replies pushed onto the per-handler reply channels.
-/

inductive JSVal where
  | undef
  | null
  | bool (b : Bool)
  | num (n : Int)
  | str (s : String)
  | obj (fields : List (String × JSVal))

/-- A StateUpdate emitted by a handler sequence: either a plain JS value
(which includes the undefined value) or a callable updater function. -/
inductive Updater where
  | jsval (v : JSVal)
  | func (f : JSVal → JSVal)

/-- State of one source stream: the BehaviorSubject current value (`cell`),
the values committed so far as delivered to state-sequence subscribers
(`stateTrace`), the registered handler identities (`registry`, append-only,
lookup by identity), and the pushes onto reply channels (`replyTrace`,
pairs of handler identity and pushed value, in push order).  One reply
channel (an Rx Subject) is attached per handler identity. -/
structure SourceStream where
  name : String
  cell : JSVal
  stateTrace : List JSVal
  registry : List Nat
  replyTrace : List (Nat × JSVal)

/-- Embeds `createSource`: a fresh BehaviorSubject holding `initialState`,
empty registry, nothing committed, nothing replied. -/
def createSource (name : String) (initialState : JSVal) : SourceStream :=
  { name := name, cell := initialState, stateTrace := [], registry := [], replyTrace := [] }

/-- Embeds the commit step of the dispatch loop body (stateStream.js lines
80-84): `stateSubject.next(nextState)` followed by
`subject.next((state: nextState))` on the reply channel of handler `hid`. -/
def commitUpdate (hid : Nat) (s : SourceStream) (v : JSVal) : SourceStream :=
  { s with
    cell := v,
    stateTrace := s.stateTrace ++ [v],
    replyTrace := s.replyTrace ++ [(hid, JSVal.obj [("state", v)])] }

/-- Embeds one iteration of the `event$.subscribe` callback (lines 67-85):
an emission that is the undefined value is skipped entirely; a callable
emission is applied to the state cell value at apply time; any other
emission is committed as-is.  Committed values are pushed to the reply
channel of the handler. -/
def applyUpdate (hid : Nat) (s : SourceStream) (u : Updater) : SourceStream :=
  match u with
  | .jsval .undef => s
  | .jsval v => commitUpdate hid s v
  | .func f => commitUpdate hid s (f s.cell)

/-- Handler table: handler identity, then the snapshot state value carried by
the one-element snapshot sequence, then the call parameters; yields the
sequence of StateUpdate values the handler emits. -/
def Handlers : Type :=
  Nat → JSVal → List JSVal → List Updater

/-- Embeds the dispatch of one Event Message (lines 51-85): look up the
handler by identity in the registry; if absent the merge map returns an
empty sequence (silent drop, no error, no state change, no reply); if
present, invoke it on the snapshot of the current cell and the parameters
and process each emitted StateUpdate in order via `applyUpdate`. -/
def dispatch (H : Handlers) (s : SourceStream) (hid : Nat) (params : List JSVal) : SourceStream :=
  if hid ∈ s.registry then
    (H hid s.cell params).foldl (applyUpdate hid) s
  else
    s

/-- Embeds `createEvent` registration (lines 87-96): appends the handler
identity to the registry.  The Subject allocated there is modelled by the
channel identifier carried in `Dispatcher`. -/
structure Dispatcher where
  handlerId : Nat
  channel : Nat

/-- Registration via `createEvent`: one reply channel (Subject) is allocated
per registration and attached to the handler identity; the returned
dispatcher closes over that one channel. -/
def createEvent (s : SourceStream) (hid : Nat) : SourceStream × Dispatcher :=
  ({ s with registry := s.registry ++ [hid] }, { handlerId := hid, channel := hid })

/-- Embeds a dispatcher call (lines 98-106): emits the Event Message onto
the bus, whose processing is `dispatch`, and returns `subject.first()` on
the shared per-handler channel; the channel identity of the returned reply
sequence is the second component. -/
def callDispatcher (H : Handlers) (d : Dispatcher) (s : SourceStream) (params : List JSVal) :
    SourceStream × Nat :=
  (dispatch H s d.handlerId params, d.channel)

/-- The values pushed, in order, onto the reply channel `ch`. -/
def channelTrace (s : SourceStream) (ch : Nat) : List JSVal :=
  (s.replyTrace.filter (fun p => p.1 == ch)).map (fun p => p.2)

/-- Embeds `subject.first()` subscribed when `subTime` values have already
been pushed onto the channel: it resolves with the next value pushed after
subscription, if any, and then completes (at most one value). -/
def firstAfter (trace : List JSVal) (subTime : Nat) : Option JSVal :=
  (trace.drop subTime).head?

/-- Runs a list of Event Messages (handler identity and parameters) through
the dispatch loop in publication order. -/
def runDispatches (H : Handlers) (s : SourceStream) (msgs : List (Nat × List JSVal)) :
    SourceStream :=
  msgs.foldl (fun st m => dispatch H st m.1 m.2) s

/-- Embeds a subscription to the state sequence made at stream state `s`
followed by the processing of `msgs`: the multicast BehaviorSubject
immediately delivers its buffered current value, then every commit made by
the later dispatches (the upstream `stateSource$` itself never emits). -/
def observedStates (H : Handlers) (s : SourceStream) (msgs : List (Nat × List JSVal)) :
    List JSVal :=
  s.cell :: ((runDispatches H s msgs).stateTrace.drop s.stateTrace.length)

/-- C1: for a registered handler whose returned sequence emits one
StateUpdate that is not the undefined value, the dispatch loop commits the
value itself when it is not callable, and the result of applying it to the
state cell value when it is callable, and pushes the object
(state: nextState) onto that handler reply channel. -/
theorem C1_dispatch_commit (H : Handlers) (s : SourceStream) (hid : Nat) (params : List JSVal)
    (hreg : hid ∈ s.registry) :
    (∀ v : JSVal, v ≠ JSVal.undef → H hid s.cell params = [Updater.jsval v] →
      dispatch H s hid params =
        { s with
          cell := v,
          stateTrace := s.stateTrace ++ [v],
          replyTrace := s.replyTrace ++ [(hid, JSVal.obj [("state", v)])] }) ∧
    (∀ f : JSVal → JSVal, H hid s.cell params = [Updater.func f] →
      dispatch H s hid params =
        { s with
          cell := f s.cell,
          stateTrace := s.stateTrace ++ [f s.cell],
          replyTrace := s.replyTrace ++ [(hid, JSVal.obj [("state", f s.cell)])] }) := by
  constructor
  · intro v hv hH
    unfold dispatch
    rw [if_pos hreg, hH]
    cases v with
    | undef => exact absurd rfl hv
    | null => rfl
    | bool b => rfl
    | num n => rfl
    | str s => rfl
    | obj fs => rfl
  · intro f hH
    unfold dispatch
    rw [if_pos hreg, hH]
    rfl

/-- Increment updater used as the concrete example: prev plus one. -/
def incr : JSVal → JSVal
  | .num n => .num (n + 1)
  | v => v

/-- Handler table for the concrete example: one handler (identity 0) that
emits the callable increment updater once. -/
def incrH : Handlers :=
  fun _ _ _ => [Updater.func incr]

theorem C1_dispatch_commit_witness :
    dispatch incrH
      { name := "c", cell := JSVal.num 5, stateTrace := [], registry := [0], replyTrace := [] }
      0 [] =
      { name := "c", cell := JSVal.num 6, stateTrace := [JSVal.num 6], registry := [0],
        replyTrace := [(0, JSVal.obj [("state", JSVal.num 6)])] } := by
  have h := (C1_dispatch_commit incrH
    { name := "c", cell := JSVal.num 5, stateTrace := [], registry := [0], replyTrace := [] }
    0 [] (by simp)).2 incr rfl
  exact h.trans rfl

/-- C2: an emission that is the undefined value is skipped entirely: the
state cell is unchanged, nothing is delivered to state-sequence
subscribers, and nothing is pushed onto the reply channel; inside a longer
emission sequence the undefined emission contributes nothing. -/
theorem C2_undefined_skip (hid : Nat) (s : SourceStream) (us1 us2 : List Updater) :
    (∀ t : SourceStream, applyUpdate hid t (Updater.jsval JSVal.undef) = t) ∧
    (us1 ++ [Updater.jsval JSVal.undef] ++ us2).foldl (applyUpdate hid) s =
      (us1 ++ us2).foldl (applyUpdate hid) s := by
  constructor
  · intro t
    rfl
  · rw [List.foldl_append, List.foldl_append, List.foldl_append]
    rfl

/-- C3: an Event Message whose handler identity is not in the registry is
dropped silently: the merge map returns an empty sequence, so dispatch
raises no error, changes no state and emits no reply — the stream state is
returned unchanged. -/
theorem C3_silent_drop (H : Handlers) (s : SourceStream) (hid : Nat) (params : List JSVal)
    (habs : hid ∉ s.registry) :
    dispatch H s hid params = s := by
  unfold dispatch
  rw [if_neg habs]

theorem C3_silent_drop_witness :
    dispatch incrH
      { name := "c", cell := JSVal.num 5, stateTrace := [], registry := [], replyTrace := [] }
      0 [] =
      { name := "c", cell := JSVal.num 5, stateTrace := [], registry := [], replyTrace := [] } :=
  C3_silent_drop incrH
    { name := "c", cell := JSVal.num 5, stateTrace := [], registry := [], replyTrace := [] }
    0 [] (by simp)

/-- C4: subscribing to the state sequence of a freshly created source
stream before any event has been dispatched yields exactly the constructor
initialState (the undefined value included) as the first and only emission,
delivered immediately by the buffered-latest BehaviorSubject. -/
theorem C4_initial_replay (H : Handlers) (name : String) (initialState : JSVal) :
    observedStates H (createSource name initialState) [] = [initialState] := by
  rfl

/-!
Relay combinator (stateStream.js lines 119-158).

`Rx.Observable.combineLatest` over the state sequences of the sources is
modelled operationally: the inputs emissions arrive as one interleaved list
of (input index, value) pairs; the combiner keeps the latest value of every
input and produces an output each time an input emits while every input has
a latest value.  The relay projection turns the combined latest list into
the keyed snapshot object, keys in the order the sources were given.
-/

/-- One input emission: the latest slot of that input is overwritten. -/
def updateLatest (latest : List (Option JSVal)) (i : Nat) (v : JSVal) : List (Option JSVal) :=
  latest.set i (some v)

/-- Whether every input has emitted at least once. -/
def allSome (latest : List (Option JSVal)) : Bool :=
  latest.all (fun o => o.isSome)

/-- The combineLatest engine: processes the interleaved input emissions in
order, emitting the full latest list each time all inputs have emitted. -/
def combineLatestAux (latest : List (Option JSVal)) :
    List (Nat × JSVal) → List (List JSVal)
  | [] => []
  | e :: rest =>
    let latest' := updateLatest latest e.1 e.2
    if allSome latest' then
      (latest'.map (fun o => o.getD JSVal.undef)) :: combineLatestAux latest' rest
    else
      combineLatestAux latest' rest

/-- The latest list after processing all emissions, starting from the fresh
state in which no input has emitted. -/
def latestAfter (n : Nat) (events : List (Nat × JSVal)) : List (Option JSVal) :=
  events.foldl (fun l e => updateLatest l e.1 e.2) (List.replicate n none)

/-- Embeds the relay projection (lines 141-149): the combined values list is
turned into an object with one key per source, in source order, each key
bound to that source latest state. -/
def relayEmissions (names : List String) (events : List (Nat × JSVal)) : List JSVal :=
  (combineLatestAux (List.replicate names.length none) events).map
    (fun states => JSVal.obj (names.zip states))

theorem combineLatestAux_cons (latest : List (Option JSVal)) (e : Nat × JSVal)
    (rest : List (Nat × JSVal)) :
    combineLatestAux latest (e :: rest) =
      if allSome (updateLatest latest e.1 e.2) then
        ((updateLatest latest e.1 e.2).map (fun o => o.getD JSVal.undef)) ::
          combineLatestAux (updateLatest latest e.1 e.2) rest
      else
        combineLatestAux (updateLatest latest e.1 e.2) rest := rfl

theorem combineLatestAux_silent (j : Nat) :
    ∀ (evs : List (Nat × JSVal)) (latest : List (Option JSVal)),
      latest[j]? = some none → (∀ e ∈ evs, e.1 ≠ j) →
      combineLatestAux latest evs = [] := by
  intro evs
  induction evs with
  | nil =>
    intro latest _ _
    rfl
  | cons e rest ih =>
    intro latest hnone hforall
    have hne : e.1 ≠ j := hforall e (List.mem_cons_self e rest)
    have hnone' : (updateLatest latest e.1 e.2)[j]? = some none := by
      rw [updateLatest, List.getElem?_set_ne hne]
      exact hnone
    have hmem : (none : Option JSVal) ∈ updateLatest latest e.1 e.2 :=
      List.getElem?_mem hnone'
    have hall : allSome (updateLatest latest e.1 e.2) = false := by
      rcases h : allSome (updateLatest latest e.1 e.2) with _ | _
      · rfl
      · have := (List.all_eq_true.mp h) none hmem
        simp at this
    show (if allSome (updateLatest latest e.1 e.2) then _ else _) = _
    rw [hall]
    simp only [Bool.false_eq_true, if_false]
    exact ih (updateLatest latest e.1 e.2) hnone'
      (fun x hx => hforall x (List.mem_cons_of_mem e hx))

theorem combineLatestAux_append (evs1 evs2 : List (Nat × JSVal)) :
    ∀ latest : List (Option JSVal),
      combineLatestAux latest (evs1 ++ evs2) =
        combineLatestAux latest evs1 ++
          combineLatestAux (evs1.foldl (fun l e => updateLatest l e.1 e.2) latest) evs2 := by
  induction evs1 with
  | nil =>
    intro latest
    rfl
  | cons e rest ih =>
    intro latest
    rw [List.cons_append, combineLatestAux_cons, combineLatestAux_cons, List.foldl_cons]
    rcases h : allSome (updateLatest latest e.1 e.2) with _ | _
    · simp only [Bool.false_eq_true, if_false]
      exact ih (updateLatest latest e.1 e.2)
    · simp only [if_true]
      rw [ih (updateLatest latest e.1 e.2), List.cons_append]

theorem combineLatestAux_mem_length :
    ∀ (evs : List (Nat × JSVal)) (latest : List (Option JSVal)) (states : List JSVal),
      states ∈ combineLatestAux latest evs → states.length = latest.length := by
  intro evs
  induction evs with
  | nil =>
    intro latest states h
    simp [combineLatestAux] at h
  | cons e rest ih =>
    intro latest states h
    have hlen : (updateLatest latest e.1 e.2).length = latest.length := by
      simp [updateLatest]
    rcases hb : allSome (updateLatest latest e.1 e.2) with _ | _
    · rw [show combineLatestAux latest (e :: rest) =
          (if allSome (updateLatest latest e.1 e.2) then
            ((updateLatest latest e.1 e.2).map (fun o => o.getD JSVal.undef)) ::
              combineLatestAux (updateLatest latest e.1 e.2) rest
          else combineLatestAux (updateLatest latest e.1 e.2) rest) from rfl, hb] at h
      simp only [Bool.false_eq_true, if_false] at h
      rw [ih (updateLatest latest e.1 e.2) states h]
      exact hlen
    · rw [show combineLatestAux latest (e :: rest) =
          (if allSome (updateLatest latest e.1 e.2) then
            ((updateLatest latest e.1 e.2).map (fun o => o.getD JSVal.undef)) ::
              combineLatestAux (updateLatest latest e.1 e.2) rest
          else combineLatestAux (updateLatest latest e.1 e.2) rest) from rfl, hb] at h
      simp only [if_true] at h
      rcases List.mem_cons.mp h with h1 | h2
      · rw [h1, List.length_map]
        exact hlen
      · rw [ih (updateLatest latest e.1 e.2) states h2]
        exact hlen

/-- C5: for a relay over sources with the given names, (1) nothing is
emitted while some input has never emitted, (2) once every input has a
latest value each further input emission produces exactly one snapshot
holding every input latest state, and (3) every emitted snapshot is an
object with exactly one key per declared source, keys in declaration
order. -/
theorem C5_relay_combination (names : List String) :
    (∀ (events : List (Nat × JSVal)) (j : Nat), j < names.length →
      (∀ e ∈ events, e.1 ≠ j) → relayEmissions names events = []) ∧
    (∀ (events : List (Nat × JSVal)) (i : Nat) (v : JSVal),
      allSome (updateLatest (latestAfter names.length events) i v) = true →
      relayEmissions names (events ++ [(i, v)]) =
        relayEmissions names events ++
          [JSVal.obj (names.zip
            ((updateLatest (latestAfter names.length events) i v).map
              (fun o => o.getD JSVal.undef)))]) ∧
    (∀ (events : List (Nat × JSVal)) (snap : JSVal), snap ∈ relayEmissions names events →
      ∃ states : List JSVal, states.length = names.length ∧
        snap = JSVal.obj (names.zip states)) := by
  refine ⟨?_, ?_, ?_⟩
  · intro events j hj hforall
    have hrep : (List.replicate names.length (none : Option JSVal))[j]? = some none :=
      List.getElem?_replicate_of_lt hj
    unfold relayEmissions
    rw [combineLatestAux_silent j events (List.replicate names.length none) hrep hforall]
    rfl
  · intro events i v hall
    have hstep : combineLatestAux (latestAfter names.length events) [(i, v)] =
        [(updateLatest (latestAfter names.length events) i v).map
          (fun o => o.getD JSVal.undef)] := by
      rw [combineLatestAux_cons, hall]
      simp only [if_true]
      rfl
    unfold relayEmissions
    rw [combineLatestAux_append events [(i, v)], List.map_append,
      show List.foldl (fun l e => updateLatest l e.1 e.2)
          (List.replicate names.length none) events =
        latestAfter names.length events from rfl,
      hstep]
    rfl
  · intro events snap hmem
    unfold relayEmissions at hmem
    rcases List.mem_map.mp hmem with ⟨states, hin, heq⟩
    refine ⟨states, ?_, heq.symm⟩
    have := combineLatestAux_mem_length events (List.replicate names.length none) states hin
    rw [this, List.length_replicate]

theorem C5_relay_combination_witness :
    relayEmissions ["A", "B"] [(0, JSVal.num 1), (1, JSVal.str "x"), (0, JSVal.num 2)] =
      [JSVal.obj [("A", JSVal.num 1), ("B", JSVal.str "x")],
       JSVal.obj [("A", JSVal.num 2), ("B", JSVal.str "x")]] := by
  have h := (C5_relay_combination ["A", "B"]).2.1
    [(0, JSVal.num 1), (1, JSVal.str "x")] 0 (JSVal.num 2) rfl
  exact h.trans rfl

/-!
Relay validation and the top-level factory (stateStream.js lines 119-196).

A candidate source passed to `createRelay` is modelled by the only features
the validation inspects: the null value (whose JS typeof is the object type
but whose field reads crash), a non-object, or an object described by its
`name` field (the empty string standing for an absent or falsy name) and
the presence (truthiness) of its state sequence and type fields.  The
duplicate-name check counts the own keys of a plain object the names are
written into, so the name __proto__, swallowed by the inherited prototype
accessor, creates no own key.  Error strings carry no apostrophe; the
duplicate-name message is paraphrased accordingly.
-/

inductive CandidateSource where
  | nullVal
  | nonObject (v : JSVal)
  | objVal (name : String) (hasState : Bool) (hasType : Bool)

/-- The name a candidate entry carries; the null value and non-objects
carry none (their validation never reaches the name collection). -/
def CandidateSource.jsName : CandidateSource → String
  | .objVal n _ _ => n
  | _ => ""

/-- Whether the entry structurally satisfies the StateStream capability of
lines 129-131: an object whose name, state sequence and type fields are all
truthy.  The null value does not satisfy it, though its JS typeof is the
object type. -/
def CandidateSource.isStateStreamShape : CandidateSource → Bool
  | .objVal n hasState hasType => (n != "") && hasState && hasType
  | _ => false

/-- Embeds one iteration of the forEach at lines 128-134 up to the key
assignment: a non-object fails the typeof test and raises the StateStream
error; the null value passes the typeof test (typeof null is the object
type) and then crashes with a TypeError when its name field is read; an
object with a falsy name, state sequence or type field raises the
StateStream error; otherwise the name is collected. -/
def sourceNameOf : CandidateSource → Except String String
  | .nullVal => Except.error "TypeError: Cannot read properties of null (reading name)"
  | .nonObject _ => Except.error "Expected the source to be type of StateStream."
  | .objVal n hasState hasType =>
    if (n != "") && hasState && hasType then
      Except.ok n
    else
      Except.error "Expected the source to be type of StateStream."

/-- Runs the forEach over all entries in order, stopping at the first
raising entry, and yields the collected names. -/
def collectNames : List CandidateSource → Except String (List String)
  | [] => Except.ok []
  | c :: rest =>
    match sourceNameOf c with
    | Except.error e => Except.error e
    | Except.ok n =>
      match collectNames rest with
      | Except.error e => Except.error e
      | Except.ok ns => Except.ok (n :: ns)

/-- Models `Object.keys(sourceNames).length` after the assignments
`sourceNames[name] = 1` of line 133 on a plain object literal: each
distinct name creates one own key, except the name __proto__, whose
assignment is intercepted by the inherited prototype accessor (the value 1
is not an object, so the setter ignores it) and creates no own key. -/
def ownKeyCount (names : List String) : Nat :=
  ((names.filter (fun n => n != "__proto__")).dedup).length

/-- The data of a successfully constructed relay: its own name and the
declared source names in order. -/
structure RelayStream where
  name : String
  sourceNames : List String

/-- Embeds `createRelay` (lines 119-158): an empty source list raises; the
forEach validates each entry and collects its name into a plain object;
afterwards the own-key count of that object must equal the source count,
else the duplicate-name error is raised; otherwise the relay is built over
the source names in the order given. -/
def createRelay (name : String) (sources : List CandidateSource) :
    Except String RelayStream :=
  if sources.length = 0 then
    Except.error "Expected the sources to be passed."
  else
    match collectNames sources with
    | Except.error e => Except.error e
    | Except.ok names =>
      if ownKeyCount names ≠ sources.length then
        Except.error "Sources name should be unique."
      else
        Except.ok { name := name, sourceNames := names }

/-- Embeds line 166: `typeof name !== string || !name`. -/
def validName : JSVal → Bool
  | .str s => s != ""
  | _ => false

/-- Embeds lines 170-173: the type must be a truthy string that is exactly
one of the two constants, compared before any case normalization. -/
def validType : JSVal → Bool
  | .str t => t == "SOURCE" || t == "RELAY"
  | _ => false

/-- Extracts the text of an already validated string value. -/
def jsStringOf : JSVal → String
  | .str s => s
  | _ => ""

/-- Models the JS toUpperCase call of line 177, character by character. -/
def toUpperJS (s : String) : String :=
  String.mk (s.data.map Char.toUpper)

inductive StreamResult where
  | sourceStream (s : SourceStream)
  | relayStream (r : RelayStream)
  | nullResult

/-- Embeds `createStateStream` (lines 160-186): validate the name, validate
the type, uppercase the type, then branch to the source or relay
constructor; the trailing branch returns the null value. -/
def createStateStream (name ty initialState : JSVal)
    (sources : Option (List CandidateSource)) : Except String StreamResult :=
  if validName name = false then
    Except.error "Expected the name to be a not none string."
  else if validType ty = false then
    Except.error "Expected the type to be one of [SOURCE, RELAY]."
  else
    let streamType := toUpperJS (jsStringOf ty)
    if streamType = "SOURCE" then
      Except.ok (StreamResult.sourceStream (createSource (jsStringOf name) initialState))
    else if streamType = "RELAY" then
      (createRelay (jsStringOf name) (sources.getD [])).map StreamResult.relayStream
    else
      Except.ok StreamResult.nullResult

/-- Embeds `createSourceStateStream` (lines 188-191). -/
def createSourceStateStream (name initialState : JSVal) : Except String StreamResult :=
  createStateStream name (JSVal.str "SOURCE") initialState (some [])

/-- Embeds `createRelayStateStream` (lines 193-196). -/
def createRelayStateStream (name : JSVal) (sources : List CandidateSource) :
    Except String StreamResult :=
  createStateStream name (JSVal.str "RELAY") JSVal.null (some sources)

theorem sourceNameOf_of_shape_true (c : CandidateSource)
    (h : c.isStateStreamShape = true) :
    sourceNameOf c = Except.ok c.jsName := by
  cases c with
  | nullVal => cases h
  | nonObject v => cases h
  | objVal n hs ht =>
    simp only [CandidateSource.isStateStreamShape] at h
    simp only [sourceNameOf, h, if_true]
    rfl

theorem sourceNameOf_of_shape_false (c : CandidateSource)
    (h : c.isStateStreamShape = false) :
    ∃ e, sourceNameOf c = Except.error e := by
  cases c with
  | nullVal => exact ⟨_, rfl⟩
  | nonObject v => exact ⟨_, rfl⟩
  | objVal n hs ht =>
    refine ⟨"Expected the source to be type of StateStream.", ?_⟩
    simp only [CandidateSource.isStateStreamShape] at h
    simp only [sourceNameOf, h, Bool.false_eq_true, if_false]

theorem collectNames_ok_of_valid :
    ∀ (sources : List CandidateSource),
      (∀ c ∈ sources, c.isStateStreamShape = true) →
      collectNames sources = Except.ok (sources.map CandidateSource.jsName) := by
  intro sources
  induction sources with
  | nil =>
    intro _
    rfl
  | cons c rest ih =>
    intro hval
    have hc := sourceNameOf_of_shape_true c (hval c (List.mem_cons_self c rest))
    have hrest := ih (fun d hd => hval d (List.mem_cons_of_mem c hd))
    simp only [collectNames, hc, hrest, List.map_cons]

theorem collectNames_error_of_invalid :
    ∀ (sources : List CandidateSource),
      (∃ c ∈ sources, c.isStateStreamShape = false) →
      ∃ e, collectNames sources = Except.error e := by
  intro sources
  induction sources with
  | nil =>
    rintro ⟨c, hc, _⟩
    cases hc
  | cons c rest ih =>
    rintro ⟨d, hd, hdb⟩
    rcases List.mem_cons.mp hd with heq | hdrest
    · subst heq
      rcases sourceNameOf_of_shape_false d hdb with ⟨e, he⟩
      exact ⟨e, by simp only [collectNames, he]⟩
    · cases hsn : sourceNameOf c with
      | error e => exact ⟨e, by simp only [collectNames, hsn]⟩
      | ok n =>
        rcases ih ⟨d, hdrest, hdb⟩ with ⟨e, he⟩
        exact ⟨e, by simp only [collectNames, hsn, he]⟩

theorem createRelay_eq_of_valid (name : String) (sources : List CandidateSource)
    (h0 : sources ≠ []) (hval : ∀ c ∈ sources, c.isStateStreamShape = true) :
    createRelay name sources =
      if ownKeyCount (sources.map CandidateSource.jsName) ≠ sources.length then
        Except.error "Sources name should be unique."
      else
        Except.ok { name := name, sourceNames := sources.map CandidateSource.jsName } := by
  unfold createRelay
  rw [if_neg (fun hl => h0 (List.length_eq_zero.mp hl)),
    collectNames_ok_of_valid sources hval]

theorem validType_cases (ty : JSVal) :
    validType ty = true ↔ (ty = JSVal.str "SOURCE" ∨ ty = JSVal.str "RELAY") := by
  cases ty <;> simp [validType]

theorem createStateStream_source (name initialState : JSVal)
    (sources : Option (List CandidateSource)) (hn : validName name = true) :
    createStateStream name (JSVal.str "SOURCE") initialState sources =
      Except.ok (StreamResult.sourceStream (createSource (jsStringOf name) initialState)) := by
  unfold createStateStream
  rw [hn]
  rfl

theorem createStateStream_relay (name initialState : JSVal)
    (sources : Option (List CandidateSource)) (hn : validName name = true) :
    createStateStream name (JSVal.str "RELAY") initialState sources =
      (createRelay (jsStringOf name) (sources.getD [])).map StreamResult.relayStream := by
  unfold createStateStream
  rw [hn]
  rfl

/-- C6 counterexample: a single structurally valid source named __proto__
has pairwise distinct names, yet relay construction raises the
duplicate-name error, because assigning under the key __proto__ on a plain
object creates no own key, so the own-key count 0 differs from the source
count 1; the claim asserts construction succeeds on such input. -/
theorem C6_proto_name_spurious_duplicate :
    createRelay "r" [CandidateSource.objVal "__proto__" true true] =
      Except.error "Sources name should be unique." ∧
    CandidateSource.isStateStreamShape (CandidateSource.objVal "__proto__" true true) = true ∧
    List.Nodup [CandidateSource.jsName (CandidateSource.objVal "__proto__" true true)] :=
  ⟨rfl, rfl, List.nodup_singleton _⟩

/-- C6 (amended): relay construction raises exactly when the source list is
empty, or some entry fails the structural StateStream check (the null
value, which passes the JS typeof test, crashes with a TypeError instead
of the StateStream error), or the own-key count of the plain object the
names are written into differs from the source count — which for names
other than __proto__ coincides with two sources sharing a name, while the
name __proto__ creates no own key and raises even when names are pairwise
distinct.  Concretely, a relay over an empty list raises, a relay over two
sources both named s raises, and a null entry raises a TypeError. -/
theorem C6_relay_validation :
    (∀ (name : String) (sources : List CandidateSource),
      (∃ e, createRelay name sources = Except.error e) ↔
        (sources = [] ∨
          (∃ c ∈ sources, c.isStateStreamShape = false) ∨
          ownKeyCount (sources.map CandidateSource.jsName) ≠ sources.length)) ∧
    createRelayStateStream (JSVal.str "r") [] =
      Except.error "Expected the sources to be passed." ∧
    createRelayStateStream (JSVal.str "r")
        [CandidateSource.objVal "s" true true, CandidateSource.objVal "s" true true] =
      Except.error "Sources name should be unique." ∧
    createRelayStateStream (JSVal.str "r")
        [CandidateSource.nullVal] =
      Except.error "TypeError: Cannot read properties of null (reading name)" := by
  refine ⟨?_, rfl, rfl, rfl⟩
  intro name sources
  constructor
  · rintro ⟨e, he⟩
    by_cases h0 : sources = []
    · exact Or.inl h0
    · by_cases hval : ∀ c ∈ sources, c.isStateStreamShape = true
      · refine Or.inr (Or.inr ?_)
        rw [createRelay_eq_of_valid name sources h0 hval] at he
        by_cases hcount : ownKeyCount (sources.map CandidateSource.jsName) ≠ sources.length
        · exact hcount
        · rw [if_neg hcount] at he
          cases he
      · refine Or.inr (Or.inl ?_)
        push_neg at hval
        rcases hval with ⟨c, hc, hcb⟩
        exact ⟨c, hc, by simpa using hcb⟩
  · intro h
    rcases h with h | h | h
    · refine ⟨"Expected the sources to be passed.", ?_⟩
      unfold createRelay
      rw [if_pos (by rw [h]; rfl)]
    · rcases collectNames_error_of_invalid sources h with ⟨e, hce⟩
      by_cases h0 : sources.length = 0
      · exact ⟨_, by unfold createRelay; rw [if_pos h0]⟩
      · refine ⟨e, ?_⟩
        unfold createRelay
        rw [if_neg h0, hce]
    · by_cases h0 : sources.length = 0
      · exact ⟨_, by unfold createRelay; rw [if_pos h0]⟩
      · by_cases hval : ∀ c ∈ sources, c.isStateStreamShape = true
        · refine ⟨"Sources name should be unique.", ?_⟩
          rw [createRelay_eq_of_valid name sources
            (fun hnil => h0 (by rw [hnil]; rfl)) hval, if_pos h]
        · push_neg at hval
          rcases hval with ⟨c, hc, hcb⟩
          rcases collectNames_error_of_invalid sources ⟨c, hc, by simpa using hcb⟩
            with ⟨e, hce⟩
          exact ⟨e, by unfold createRelay; rw [if_neg h0, hce]⟩

/-- C7 counterexample: the claim admits any type whose uppercase form is
SOURCE or RELAY, for example the lowercase spelling, but the code compares
the raw type against the two constants before normalizing case, so the
lowercase spelling raises InvalidArgument. -/
theorem C7_lowercase_source_rejected :
    createStateStream (JSVal.str "r") (JSVal.str "source") JSVal.undef (some []) =
      Except.error "Expected the type to be one of [SOURCE, RELAY]." := rfl

/-- C7 (amended): createStateStream accepts exactly a non-empty string name
together with a type that is exactly the string SOURCE or the string RELAY
(case sensitive; the uppercase normalization runs only after this check),
delegating to the corresponding constructor, and otherwise raises
InvalidArgument naming the violated constraint. -/
theorem C7_factory_validation (name ty initialState : JSVal)
    (sources : Option (List CandidateSource)) :
    (validName name = true → ty = JSVal.str "SOURCE" →
      createStateStream name ty initialState sources =
        Except.ok (StreamResult.sourceStream (createSource (jsStringOf name) initialState))) ∧
    (validName name = true → ty = JSVal.str "RELAY" →
      createStateStream name ty initialState sources =
        (createRelay (jsStringOf name) (sources.getD [])).map StreamResult.relayStream) ∧
    (validName name = false →
      createStateStream name ty initialState sources =
        Except.error "Expected the name to be a not none string.") ∧
    (validName name = true → validType ty = false →
      createStateStream name ty initialState sources =
        Except.error "Expected the type to be one of [SOURCE, RELAY].") ∧
    (validType ty = true ↔ (ty = JSVal.str "SOURCE" ∨ ty = JSVal.str "RELAY")) := by
  refine ⟨?_, ?_, ?_, ?_, validType_cases ty⟩
  · intro hn hty
    subst hty
    exact createStateStream_source name initialState sources hn
  · intro hn hty
    subst hty
    exact createStateStream_relay name initialState sources hn
  · intro hn
    unfold createStateStream
    rw [hn]
    rfl
  · intro hn hty
    unfold createStateStream
    rw [hn, hty]
    rfl

theorem C7_factory_validation_witness :
    createStateStream (JSVal.str "r") (JSVal.str "SOURCE") (JSVal.num 0) (some []) =
      Except.ok (StreamResult.sourceStream (createSource "r" (JSVal.num 0))) := by
  have h := (C7_factory_validation (JSVal.str "r") (JSVal.str "SOURCE") (JSVal.num 0)
    (some [])).1 rfl rfl
  exact h.trans rfl

/-- C10 counterexample: with the valid name r and the valid type RELAY the
name and type validation succeeds, yet `createStateStream` returns no
stream object: the delegated relay constructor raises on the empty source
list. -/
theorem C10_relay_delegation_raises :
    validName (JSVal.str "r") = true ∧ validType (JSVal.str "RELAY") = true ∧
    createStateStream (JSVal.str "r") (JSVal.str "RELAY") JSVal.null (some []) =
      Except.error "Expected the sources to be passed." :=
  ⟨rfl, rfl, rfl⟩

/-- C10 (amended): whenever the name and type validation of
createStateStream succeeds, the validated type uppercases to exactly SOURCE
or RELAY, so the trailing null-returning branch is unreachable and the
result is never the null value: it is a source stream object, or the
result of the delegated relay construction (which may raise rather than
return). -/
theorem C10_null_branch_unreachable (name ty initialState : JSVal)
    (sources : Option (List CandidateSource))
    (hn : validName name = true) (ht : validType ty = true) :
    createStateStream name ty initialState sources ≠ Except.ok StreamResult.nullResult ∧
    (toUpperJS (jsStringOf ty) = "SOURCE" ∨ toUpperJS (jsStringOf ty) = "RELAY") ∧
    ((∃ s, createStateStream name ty initialState sources =
        Except.ok (StreamResult.sourceStream s)) ∨
      createStateStream name ty initialState sources =
        (createRelay (jsStringOf name) (sources.getD [])).map StreamResult.relayStream) := by
  rcases (validType_cases ty).mp ht with hty | hty
  · subst hty
    rw [createStateStream_source name initialState sources hn]
    refine ⟨?_, Or.inl rfl, Or.inl ⟨createSource (jsStringOf name) initialState, rfl⟩⟩
    intro h
    cases h
  · subst hty
    rw [createStateStream_relay name initialState sources hn]
    refine ⟨?_, Or.inr rfl, Or.inr rfl⟩
    intro h
    rcases hrel : createRelay (jsStringOf name) (sources.getD []) with e | r
    · rw [hrel] at h
      cases h
    · rw [hrel] at h
      cases h

theorem C10_null_branch_unreachable_witness :
    createStateStream (JSVal.str "n") (JSVal.str "SOURCE") JSVal.undef (some []) ≠
      Except.ok StreamResult.nullResult :=
  (C10_null_branch_unreachable (JSVal.str "n") (JSVal.str "SOURCE") JSVal.undef
    (some []) rfl rfl).1

/-!
The observation adapter `stateObserver` (stateStream.js lines 21-33) and
the shared reply channel of `createEvent` (lines 87-107).

The observer argument is either not callable or a function from the state
sequence (modelled by its emission list) to a value that either is a
recognized observable sequence or is not.  On success the adapter
subscribes to the returned sequence at once and the call itself evaluates
to the undefined value: no unsubscribe handle is handed back.
-/

inductive ObsReturn where
  | observable (emissions : List JSVal)
  | notObservable (v : JSVal)

inductive ObserverArg where
  | notFn (v : JSVal)
  | fn (f : List JSVal → ObsReturn)

/-- Outcome of a successful observe call: the value returned to the caller
and the sequence that was subscribed immediately. -/
structure ObserveSuccess where
  retVal : JSVal
  subscribedTo : List JSVal

/-- Embeds `stateObserver`: a non-callable observer raises; a callable one
is invoked on the state sequence and must hand back an observable sequence,
else the call raises; the returned sequence is subscribed at once and the
call returns the undefined value. -/
def stateObserver (stateSeq : List JSVal) : ObserverArg → Except String ObserveSuccess
  | .notFn _ => Except.error "Expected observer to be a function."
  | .fn f =>
    match f stateSeq with
    | .notObservable _ => Except.error "Expected observer return an Observable instance."
    | .observable ems => Except.ok { retVal := JSVal.undef, subscribedTo := ems }

/-- C8: observe raises InvalidArgument on a non-callable observer; it
invokes the observer on the state sequence and raises InvalidArgument when
the returned value is not a recognized observable sequence; otherwise it
subscribes to the returned sequence immediately and hands back no
unsubscribe handle (the call evaluates to the undefined value).  This is
the one observe adapter shared by source and relay streams. -/
theorem C8_observe_contract (stateSeq : List JSVal) :
    (∀ v, stateObserver stateSeq (ObserverArg.notFn v) =
      Except.error "Expected observer to be a function.") ∧
    (∀ f v, f stateSeq = ObsReturn.notObservable v →
      stateObserver stateSeq (ObserverArg.fn f) =
        Except.error "Expected observer return an Observable instance.") ∧
    (∀ f ems, f stateSeq = ObsReturn.observable ems →
      stateObserver stateSeq (ObserverArg.fn f) =
        Except.ok { retVal := JSVal.undef, subscribedTo := ems }) := by
  refine ⟨fun v => rfl, ?_, ?_⟩
  · intro f v hf
    simp only [stateObserver, hf]
  · intro f ems hf
    simp only [stateObserver, hf]

theorem C8_observe_contract_witness :
    stateObserver [JSVal.num 1] (ObserverArg.fn ObsReturn.observable) =
      Except.ok { retVal := JSVal.undef, subscribedTo := [JSVal.num 1] } :=
  (C8_observe_contract [JSVal.num 1]).2.2 ObsReturn.observable [JSVal.num 1] rfl

/-- Handler for the reply race example: emits its first call parameter as
the literal next state. -/
def echoH : Handlers :=
  fun _ _ params => [Updater.jsval (params.headD JSVal.undef)]

/-- C9: every call of a dispatcher returns a take-first sequence over the
single reply channel tied to the handler identity at registration; no
fresh channel is allocated per call.  Concretely, with the echo handler
registered as identity 0, dispatching the parameter a and then the
parameter b pushes both replies onto the one shared channel, and the first
call, whose take-first subscription lands after its own synchronous apply,
resolves with the reply produced by the second call. -/
theorem C9_shared_reply_channel :
    (∀ (s s1 s2 : SourceStream) (hid : Nat) (H1 H2 : Handlers) (p1 p2 : List JSVal),
      (callDispatcher H1 (createEvent s hid).2 s1 p1).2 =
        (callDispatcher H2 (createEvent s hid).2 s2 p2).2) ∧
    (∀ (d : Dispatcher) (H : Handlers) (s : SourceStream) (p : List JSVal),
      (callDispatcher H d s p).2 = d.channel) ∧
    firstAfter
      (channelTrace
        (callDispatcher echoH (createEvent (createSource "s" (JSVal.num 0)) 0).2
          (callDispatcher echoH (createEvent (createSource "s" (JSVal.num 0)) 0).2
            (createEvent (createSource "s" (JSVal.num 0)) 0).1 [JSVal.str "a"]).1
          [JSVal.str "b"]).1
        0)
      1 = some (JSVal.obj [("state", JSVal.str "b")]) := by
  exact ⟨fun _ _ _ _ _ _ _ _ => rfl, fun _ _ _ _ => rfl, rfl⟩
